import Mathlib

/-!
Verification of `mattermost_schedule/schedule.py` (class `ScheduleAPI`): a
shallow embedding of the `/schedule` POST pipeline — content-type dispatch,
form and JSON validation, the list / delete handlers and the attachment
builder — together with theorems settling the specification's claims.

Python values flowing through the handlers are modelled by `JVal`
(JSON-like data: None, bool, int, str, list, dict).  Non-integral JSON
numbers (floats) and uploaded-file form values are outside the model; no
claim depends on them.  Exceptions are modelled as `Option`: `none` means
the Python code raises at that point.
-/

namespace MattermostSchedule

/-- JSON-like Python value: the data `request.json()` can produce and that
the handlers index into. -/
inductive JVal : Type where
  | jnull : JVal
  | jbool : Bool → JVal
  | jint : Int → JVal
  | jstr : String → JVal
  | jarr : List JVal → JVal
  | jobj : List (String × JVal) → JVal

/-- Python `d[k]` / `k in d` on a string-keyed dict, as first-match lookup. -/
def dictGet : List (String × JVal) → String → Option JVal
  | [], _ => none
  | (k2, v) :: rest, k => if k2 = k then some v else dictGet rest k

/-- Lookup in the form-field mapping produced by `dict(await request.form())`. -/
def formGet : List (String × String) → String → Option String
  | [], _ => none
  | (k2, v) :: rest, k => if k2 = k then some v else formGet rest k

/-- Python `x == s` for a string literal `s`: only an equal string compares
equal (no other JSON value equals a `str`). -/
def isStrEq (v : JVal) (s : String) : Bool :=
  match v with
  | .jstr t => t = s
  | _ => false

/-- Python `"s" in xs` for a list `xs`: membership by equality with `s`. -/
def listHasStr (s : String) : List JVal → Bool
  | [] => false
  | v :: rest => isStrEq v s || listHasStr s rest

/-- `charsPre n h` is true when `n` is a prefix of `h`. -/
def charsPre : List Char → List Char → Bool
  | [], _ => true
  | _ :: _, [] => false
  | c :: cs, d :: ds => c = d && charsPre cs ds

/-- `charsSub n h` is true when `n` occurs contiguously inside `h`. -/
def charsSub (needle : List Char) : List Char → Bool
  | [] => charsPre needle []
  | d :: ds => charsPre needle (d :: ds) || charsSub needle ds

/-- Python `needle in hay` on strings: substring test. -/
def pyIn (needle hay : String) : Bool :=
  charsSub needle.toList hay.toList

/-- `strPre p s` is true when `p` is a prefix of the string `s`. -/
def strPre (p s : String) : Bool :=
  charsPre p.toList s.toList

/-- Characters Python's `int(str)` strips from both ends. -/
def isPySpace (c : Char) : Bool :=
  c = ' ' || c = '\t' || c = '\n' || c = '\r' || c = '\x0b' || c = '\x0c'

/-- Digit run of Python `int(str)` after the first digit: decimal digits with
single underscores allowed between digits only. -/
def pyDigitsAux : Nat → List Char → Option Nat
  | acc, [] => some acc
  | acc, c :: rest =>
    if c.isDigit then pyDigitsAux (acc * 10 + (c.toNat - 48)) rest
    else if c = '_' then
      match rest with
      | [] => none
      | d :: rest2 =>
        if d.isDigit then pyDigitsAux (acc * 10 + (d.toNat - 48)) rest2 else none
    else none

/-- Nonempty digit run, leading digit required. -/
def pyDigits : List Char → Option Nat
  | [] => none
  | c :: rest => if c.isDigit then pyDigitsAux (c.toNat - 48) rest else none

/-- Sign and digits of Python `int(str)` after whitespace stripping. -/
def pyIntOfChars : List Char → Option Int
  | '+' :: rest => (pyDigits rest).map (fun n => (n : Int))
  | '-' :: rest => (pyDigits rest).map (fun n => -(n : Int))
  | cs => (pyDigits cs).map (fun n => (n : Int))

/-- Both-ends whitespace strip of Python `int(str)`. -/
def pyStrip (s : String) : List Char :=
  ((s.toList.dropWhile isPySpace).reverse.dropWhile isPySpace).reverse

/-- Python `int(s)` on an ASCII string; `none` models `ValueError`. -/
def pyIntOfStr (s : String) : Option Int :=
  pyIntOfChars (pyStrip s)

/-- Python `int(x)` on a JSON value; `none` models `ValueError`/`TypeError`
(both are caught by the validator).  `int(True) = 1`, `int(False) = 0`. -/
def pyInt : JVal → Option Int
  | .jint n => some n
  | .jbool b => some (if b then 1 else 0)
  | .jstr s => pyIntOfStr s
  | _ => none

mutual
/-- Python `repr(x)` for the modelled values (string escaping inside `repr`
is not modelled; no value in the source or the claims needs it). -/
def pyRepr : JVal → String
  | .jnull => "None"
  | .jbool true => "True"
  | .jbool false => "False"
  | .jint n => toString n
  | .jstr s => "'" ++ s ++ "'"
  | .jarr xs => "[" ++ pyReprItems xs ++ "]"
  | .jobj fs => "\x7b" ++ pyReprFields fs ++ "\x7d"

/-- Comma-separated `repr`s of a Python list's items. -/
def pyReprItems : List JVal → String
  | [] => ""
  | [v] => pyRepr v
  | v :: w :: rest => pyRepr v ++ ", " ++ pyReprItems (w :: rest)

/-- Comma-separated `'key': repr` pairs of a Python dict. -/
def pyReprFields : List (String × JVal) → String
  | [] => ""
  | [(k, v)] => "'" ++ k ++ "': " ++ pyRepr v
  | (k, v) :: f :: rest => "'" ++ k ++ "': " ++ pyRepr v ++ ", " ++ pyReprFields (f :: rest)
end

/-- Python `str(x)` as used by f-string interpolation. -/
def pyStr : JVal → String
  | .jstr s => s
  | v => pyRepr v

/-- A `JSONResponse`: HTTP status code and JSON body. -/
structure Response : Type where
  status : Nat
  body : JVal

/-- `JSONResponse(content=\x7b"text": f"Error: ..."\x7d, status_code=400)` as built
by `_handle_json_command` / `_handle_form_command`. -/
def errorResponse (error : String) : Response :=
  { status := 400, body := .jobj [("text", .jstr ("Error: " ++ error))] }

/-- The `post_handler` catch-all response: status 500, generic text. -/
def internalErrorResponse : Response :=
  { status := 500, body := .jobj [("text", .jstr "Internal server error")] }

/-- `ScheduleAPI._validate_json_command` (schedule.py lines 161-183). -/
def validate_json_command (data : List (String × JVal)) : Bool × String :=
  match dictGet data "context" with
  | none => (false, "No context provided")
  | some context =>
    match context with
    | .jobj ctx =>
      match dictGet ctx "action" with
      | none => (false, "No action specified in context")
      | some action =>
        if isStrEq action "delete" then
          match dictGet ctx "id" with
          | none => (false, "No id specified in context")
          | some rawId =>
            match pyInt rawId with
            | none =>
              (false, "Invalid id: " ++ pyStr rawId ++ ". Must be a valid integer.")
            | some event_id =>
              if event_id ≤ 0 then
                (false, "Invalid id: " ++ toString event_id ++ ". Must be a positive integer.")
              else (true, "")
        else
          (false, "Invalid action: " ++ pyStr action ++ ". Only 'delete' is supported.")
    | _ => (false, "Context must be a dictionary")

/-- `ScheduleAPI._validate_form_command` (schedule.py lines 185-192). -/
def validate_form_command (data : List (String × String)) : Bool × String :=
  match formGet data "command" with
  | none => (false, "No command provided")
  | some command =>
    if command = "/schedule" then (true, "")
    else (false, "Invalid command: " ++ command ++ ". Only /schedule is supported.")

/-- `ScheduleAPI.create_message_attachment` (schedule.py lines 140-159). -/
def create_message_attachment (pretext txt : String) (message_id : Int) : JVal :=
  .jobj [
    ("pretext", .jstr pretext),
    ("text", .jstr txt),
    ("actions", .jarr [
      .jobj [
        ("id", .jstr "delete"),
        ("name", .jstr "Delete"),
        ("style", .jstr "danger"),
        ("integration", .jobj [
          ("url", .jstr "http://localhost:8001/schedule"),
          ("context", .jobj [("action", .jstr "delete"), ("id", .jint message_id)])])]])]

/-- `ScheduleAPI._handle_list_command` (schedule.py lines 112-130); the
implicit `JSONResponse` status is 200. -/
def handle_list_command : Response :=
  { status := 200,
    body := .jobj [
      ("text", .jstr "### Scheduled Events"),
      ("attachments", .jarr [
        create_message_attachment "" "### 2024-02-20 10:00 AM\nTeam Meeting" 1,
        create_message_attachment "" "### 2024-02-21 2:30 PM\nProject Review" 2,
        create_message_attachment "" "### 2024-02-22 11:00 AM\nClient Call" 3])] }

/-- `ScheduleAPI._handle_delete_command` (schedule.py lines 132-138):
`data["context"]["id"]` interpolated into an `ephemeral_text` body.  `none`
models the `KeyError`/`TypeError` the lookups would raise (unreachable after
validation). -/
def handle_delete_command (data : List (String × JVal)) : Option Response :=
  match dictGet data "context" with
  | some (.jobj ctx) =>
    match dictGet ctx "id" with
    | some message_id =>
      some { status := 200,
             body := .jobj [("ephemeral_text",
               .jstr ("Scheduled message " ++ pyStr message_id ++ " deleted."))] }
    | none => none
  | _ => none

/-- `ScheduleAPI._handle_json_command` (schedule.py lines 91-96) applied to
whatever `request.json()` returned.  On a dict it validates and either
errors (400) or delegates to the delete handler.  On a list or string,
Python's `"context" not in data` is membership / substring, and a hit makes
the subsequent `data["context"]` raise `TypeError` (`none`); on any other
value the `in` itself raises. -/
def handle_json_command : JVal → Option Response
  | .jobj data =>
    let v := validate_json_command data
    if v.1 then handle_delete_command data else some (errorResponse v.2)
  | .jarr xs =>
    if listHasStr "context" xs then none
    else some (errorResponse "No context provided")
  | .jstr s =>
    if pyIn "context" s then none
    else some (errorResponse "No context provided")
  | _ => none

/-- `ScheduleAPI._handle_form_command` (schedule.py lines 98-110): validate,
then route `text == "list"` to the list handler and anything else to the
fixed `Unknown operation` 400 error. -/
def handle_form_command (data : List (String × String)) : Response :=
  let v := validate_form_command data
  if v.1 then
    if formGet data "text" = some "list" then handle_list_command
    else { status := 400,
           body := .jobj [("text", .jstr "Error: Unknown operation. Available: list")] }
  else errorResponse v.2

/-- A POST request to `/schedule` as the handler observes it: the
`content-type` header, the result of `await request.json()` (`none` when the
body is not valid JSON and the call raises), and the field mapping
`dict(await request.form())` yields (empty for non-form bodies). -/
structure PostRequest : Type where
  contentType : String
  jsonBody : Option JVal
  formFields : List (String × String)

/-- `ScheduleAPI._log_post_request` (schedule.py lines 57-70) runs before
`post_handler`'s try block and re-reads the body: for a JSON content type it
awaits `request.json()`, which raises when the body is not valid JSON.  The
`multipart/form-data` branch is checked first and only re-reads the form.
`true` means this logging step raises. -/
def log_post_request_faults (req : PostRequest) : Bool :=
  if pyIn "multipart/form-data" req.contentType then false
  else if pyIn "application/json" req.contentType then req.jsonBody.isNone
  else false

/-- `ScheduleAPI.post_handler` (schedule.py lines 77-89).  The metadata
logging is awaited before the try block, so a fault there propagates
(`none`).  Inside the try, any raise is caught and turned into the 500
`Internal server error` response. -/
def post_handler (req : PostRequest) : Option Response :=
  if log_post_request_faults req then none
  else some (
    if pyIn "application/json" req.contentType then
      match req.jsonBody with
      | none => internalErrorResponse
      | some v => (handle_json_command v).getD internalErrorResponse
    else handle_form_command req.formFields)

/-- Whether the body is a JSON object carrying key `k`. -/
def hasKey (v : JVal) (k : String) : Bool :=
  match v with
  | .jobj fields => (dictGet fields k).isSome
  | _ => false

/-- The six checks of the JSON validator in the order the specification
lists them, each as (does it fail?, its error message).  Later checks are
total (defaults fill in missing earlier data) so that the short-circuit
theorem genuinely says earlier failures mask them. -/
def jsonCheckList (data : List (String × JVal)) : List (Bool × String) :=
  let contextOpt := dictGet data "context"
  let context := contextOpt.getD .jnull
  let ctx := match context with | .jobj fs => fs | _ => []
  let actionOpt := dictGet ctx "action"
  let action := actionOpt.getD .jnull
  let idOpt := dictGet ctx "id"
  let rawId := idOpt.getD .jnull
  [ (contextOpt.isNone, "No context provided"),
    (!(match context with | .jobj _ => true | _ => false), "Context must be a dictionary"),
    (actionOpt.isNone, "No action specified in context"),
    (!(isStrEq action "delete"),
      "Invalid action: " ++ pyStr action ++ ". Only 'delete' is supported."),
    (idOpt.isNone, "No id specified in context"),
    ((match pyInt rawId with | none => true | some n => decide (n ≤ 0)),
      match pyInt rawId with
      | none => "Invalid id: " ++ pyStr rawId ++ ". Must be a valid integer."
      | some n => "Invalid id: " ++ toString n ++ ". Must be a positive integer.") ]

/-- Short-circuit evaluation: the first failing check's message is reported
and every later check is skipped; all checks passing yields success. -/
def firstFailingCheck : List (Bool × String) → Bool × String
  | [] => (true, "")
  | (failed, msg) :: rest => if failed then (false, msg) else firstFailingCheck rest

/-- The JSON validator as the specification words it: the ordered check
list evaluated by short-circuit. -/
def orderedValidateJson (data : List (String × JVal)) : Bool × String :=
  firstFailingCheck (jsonCheckList data)

/-- Context payload of an attachment's single delete action
(`attachment.actions[0].integration.context`). -/
def actionContext (att : JVal) : Option (List (String × JVal)) :=
  match att with
  | .jobj fields =>
    match dictGet fields "actions" with
    | some (.jarr [.jobj af]) =>
      match dictGet af "integration" with
      | some (.jobj intf) =>
        match dictGet intf "context" with
        | some (.jobj ctx) => some ctx
        | _ => none
      | _ => none
    | _ => none
  | _ => none

/-- The `attachments` list of a response body (empty when absent). -/
def responseAttachments (r : Response) : List JVal :=
  match r.body with
  | .jobj fields =>
    match dictGet fields "attachments" with
    | some (.jarr atts) => atts
    | _ => []
  | _ => []

/-- Sequential processing of several requests.  `ScheduleAPI` holds no
mutable state the handlers touch (its attributes are set once in `__init__`
and only read), so a batch is the per-request function mapped over the
sequence. -/
def runBatch (reqs : List PostRequest) : List (Option Response) :=
  reqs.map post_handler

/-- JSON body `\x7b"context": \x7b"action": "delete", "id": 2\x7d\x7d` posted with
content type `application/json`. -/
def jsonDelete2Request : PostRequest :=
  { contentType := "application/json",
    jsonBody := some (.jobj [("context", .jobj [("action", .jstr "delete"), ("id", .jint 2)])]),
    formFields := [] }

/-- Form body `command=/schedule&text=list` posted URL-encoded. -/
def listFormRequest : PostRequest :=
  { contentType := "application/x-www-form-urlencoded",
    jsonBody := none,
    formFields := [("command", "/schedule"), ("text", "list")] }

end MattermostSchedule

namespace MattermostSchedule

/- Helper lemmas shared by the claim theorems. -/

theorem charsPre_append (a b : List Char) : charsPre a (a ++ b) = true := by
  induction a with
  | nil => rfl
  | cons c cs ih => simp [charsPre, ih]

theorem strPre_append (p t : String) : strPre p (p ++ t) = true := by
  cases p with
  | mk pd =>
    cases t with
    | mk td =>
      show charsPre (String.toList ⟨pd⟩) (String.toList (⟨pd⟩ ++ ⟨td⟩)) = true
      have h : String.toList (String.mk pd ++ String.mk td) = pd ++ td := rfl
      rw [h]
      exact charsPre_append pd td

theorem handle_delete_some (data : List (String × JVal)) (r : Response)
    (h : handle_delete_command data = some r) :
    ∃ s, r.body = .jobj [("ephemeral_text", .jstr s)] := by
  unfold handle_delete_command at h
  split at h
  · split at h
    · simp only [Option.some.injEq] at h
      exact ⟨_, by rw [← h]⟩
    · exact absurd h (by simp)
  · exact absurd h (by simp)

theorem handle_json_text_or_ephemeral (v : JVal) (r : Response)
    (h : handle_json_command v = some r) :
    hasKey r.body "text" = true ∨ ∃ s, r.body = .jobj [("ephemeral_text", .jstr s)] := by
  cases v with
  | jobj data =>
    unfold handle_json_command at h
    by_cases hv : (validate_json_command data).1 = true
    · simp only [hv, if_true] at h
      exact Or.inr (handle_delete_some data r h)
    · simp only [hv] at h
      simp at h
      rw [← h]
      exact Or.inl rfl
  | jarr xs =>
    unfold handle_json_command at h
    by_cases hm : listHasStr "context" xs = true
    · simp [hm] at h
    · simp [hm] at h
      rw [← h]
      exact Or.inl rfl
  | jstr s =>
    unfold handle_json_command at h
    by_cases hm : pyIn "context" s = true
    · simp [hm] at h
    · simp [hm] at h
      rw [← h]
      exact Or.inl rfl
  | jnull => exact absurd h (by simp [handle_json_command])
  | jbool b => exact absurd h (by simp [handle_json_command])
  | jint n => exact absurd h (by simp [handle_json_command])

theorem handle_form_has_text (data : List (String × String)) :
    hasKey (handle_form_command data).body "text" = true := by
  unfold handle_form_command
  by_cases hv : (validate_form_command data).1 = true
  · by_cases ht : formGet data "text" = some "list"
    · simp [hv, ht]; rfl
    · simp [hv, ht]; rfl
  · simp [hv]; rfl

/-- C1 counterexample: the successful JSON delete command is answered with a
body whose only key is `ephemeral_text`; the response body has no `text`
key, refuting the claim that every response carries one. -/
theorem delete_ack_has_no_text_key :
    post_handler jsonDelete2Request =
      some { status := 200,
             body := .jobj [("ephemeral_text", .jstr "Scheduled message 2 deleted.")] } ∧
    hasKey (JVal.jobj [("ephemeral_text", .jstr "Scheduled message 2 deleted.")]) "text" = false :=
  ⟨rfl, rfl⟩

/-- C1 (amended): every response the `/schedule` POST handler itself returns
carries a `text` key, except the JSON delete acknowledgement, whose body is
an object holding only `ephemeral_text`. -/
theorem every_response_has_text_or_ephemeral_text (req : PostRequest) (r : Response)
    (h : post_handler req = some r) :
    hasKey r.body "text" = true ∨ ∃ s, r.body = .jobj [("ephemeral_text", .jstr s)] := by
  unfold post_handler at h
  split at h
  · exact absurd h (by simp)
  · simp only [Option.some.injEq] at h
    split at h
    · split at h
      · rw [← h]; exact Or.inl rfl
      · rename_i v hb
        rcases hjc : handle_json_command v with _ | r2 <;> rw [hjc] at h <;>
          simp only [Option.getD] at h
        · rw [← h]; exact Or.inl rfl
        · rw [← h]
          exact handle_json_text_or_ephemeral v r2 hjc
    · rw [← h]
      exact Or.inl (handle_form_has_text req.formFields)

/-- C1 witness: the amended theorem applied to a concrete request (JSON
content type with a null body, answered by the internal-error response). -/
theorem every_response_has_text_or_ephemeral_text_witness :
    hasKey internalErrorResponse.body "text" = true ∨
      ∃ s, internalErrorResponse.body = .jobj [("ephemeral_text", .jstr s)] :=
  every_response_has_text_or_ephemeral_text
    { contentType := "application/json", jsonBody := some .jnull, formFields := [] }
    internalErrorResponse rfl

/-- C2 counterexample: the valid form payload with `text="delete"` is
answered with the 400 `Unknown operation` error envelope, not a deletion
acknowledgement. -/
theorem form_delete_gives_unknown_operation_error :
    handle_form_command [("command", "/schedule"), ("text", "delete")] =
      { status := 400,
        body := .jobj [("text", .jstr "Error: Unknown operation. Available: list")] } ∧
    strPre "Error:" "Error: Unknown operation. Available: list" = true :=
  ⟨rfl, rfl⟩

/-- C2 (amended): every form payload passing form validation whose `text`
field equals "delete" is answered with the fixed `Unknown operation` error
response (status 400), independent of any other field; this revision has no
form delete acknowledgement. -/
theorem form_delete_unknown_operation_uniform (data : List (String × String))
    (hv : (validate_form_command data).1 = true)
    (ht : formGet data "text" = some "delete") :
    handle_form_command data =
      { status := 400,
        body := .jobj [("text", .jstr "Error: Unknown operation. Available: list")] } := by
  unfold handle_form_command
  have hne : formGet data "text" ≠ some "list" := by rw [ht]; simp
  simp [hv, hne]

/-- C2 witness: the amended theorem at a payload carrying an extra field. -/
theorem form_delete_unknown_operation_uniform_witness :
    handle_form_command [("command", "/schedule"), ("text", "delete"), ("channel_id", "c42")] =
      { status := 400,
        body := .jobj [("text", .jstr "Error: Unknown operation. Available: list")] } :=
  form_delete_unknown_operation_uniform
    [("command", "/schedule"), ("text", "delete"), ("channel_id", "c42")] rfl rfl

/-- C3: the JSON validator equals the short-circuit evaluation of its six
checks in the specified order — missing `context`, `context` not a mapping,
missing `context.action`, `context.action` not "delete", missing
`context.id`, `context.id` unparseable or nonpositive — so the first
failing check determines the reported message and later checks are
skipped. -/
theorem validate_json_equals_ordered_checks (data : List (String × JVal)) :
    validate_json_command data = orderedValidateJson data := by
  unfold validate_json_command orderedValidateJson jsonCheckList
  rcases hc : dictGet data "context" with _ | context
  · simp [firstFailingCheck]
  · cases context with
    | jobj ctx =>
      rcases ha : dictGet ctx "action" with _ | action
      · simp [ha, firstFailingCheck]
      · by_cases hd : isStrEq action "delete" = true
        · rcases hi : dictGet ctx "id" with _ | rawId
          · simp [ha, hd, hi, firstFailingCheck]
          · rcases hp : pyInt rawId with _ | n
            · simp [ha, hd, hi, hp, firstFailingCheck]
            · by_cases hn : n ≤ 0
              · simp [ha, hd, hi, hp, hn, firstFailingCheck]
              · simp [ha, hd, hi, hp, hn, firstFailingCheck]
        · simp [ha, hd, firstFailingCheck]
    | jnull => simp [firstFailingCheck]
    | jbool b => simp [firstFailingCheck]
    | jint n => simp [firstFailingCheck]
    | jstr s => simp [firstFailingCheck]
    | jarr xs => simp [firstFailingCheck]

/-- C4 counterexample: a payload whose `context.id` parses to 0 (≤ 0) but
whose `context.action` is not "delete" is reported as `Invalid action`, not
`Invalid id`: the earlier check masks the bad id. -/
theorem invalid_action_masks_bad_id :
    handle_json_command (.jobj [("context", .jobj [("action", .jstr "wait"), ("id", .jint 0)])]) =
      some (errorResponse "Invalid action: wait. Only 'delete' is supported.") ∧
    pyIn "Invalid id" "Error: Invalid action: wait. Only 'delete' is supported." = false ∧
    pyInt (.jint 0) = some 0 ∧ (0 : Int) ≤ 0 :=
  ⟨rfl, rfl, rfl, by decide⟩

/-- C4 (amended): for every JSON object payload that passes the earlier
checks (a `context` mapping whose `action` is "delete" and whose `id` is
present), an `id` that cannot be parsed as an integer or parses to a value
at most 0 makes validation fail, and the response is a 400 error whose
message starts "Invalid id: " — the delete handler is never reached. -/
theorem bad_id_after_earlier_checks_reports_invalid_id
    (data ctx : List (String × JVal)) (rawId : JVal)
    (hc : dictGet data "context" = some (.jobj ctx))
    (ha : dictGet ctx "action" = some (.jstr "delete"))
    (hi : dictGet ctx "id" = some rawId)
    (hbad : pyInt rawId = none ∨ ∃ n, pyInt rawId = some n ∧ n ≤ 0) :
    (validate_json_command data).1 = false ∧
    ∃ msg, handle_json_command (.jobj data) = some (errorResponse msg) ∧
      strPre "Invalid id: " msg = true := by
  have hact : isStrEq (JVal.jstr "delete") "delete" = true := rfl
  rcases hbad with hb | ⟨n, hn, hle⟩
  · have hv : validate_json_command data =
        (false, "Invalid id: " ++ (pyStr rawId ++ ". Must be a valid integer.")) := by
      unfold validate_json_command
      simp [hc, ha, hi, hb, hact, String.append_assoc]
    refine ⟨by rw [hv], "Invalid id: " ++ (pyStr rawId ++ ". Must be a valid integer."), ?_, ?_⟩
    · simp only [handle_json_command]
      rw [hv]
      simp
    · exact strPre_append _ _
  · have hv : validate_json_command data =
        (false, "Invalid id: " ++ (toString n ++ ". Must be a positive integer.")) := by
      unfold validate_json_command
      simp [hc, ha, hi, hn, hle, hact, String.append_assoc]
    refine ⟨by rw [hv], "Invalid id: " ++ (toString n ++ ". Must be a positive integer."), ?_, ?_⟩
    · simp only [handle_json_command]
      rw [hv]
      simp
    · exact strPre_append _ _

/-- C4 witness: the amended theorem at `id = "abc"` (unparseable). -/
theorem bad_id_after_earlier_checks_reports_invalid_id_witness :
    (validate_json_command
        [("context", .jobj [("action", .jstr "delete"), ("id", .jstr "abc")])]).1 = false :=
  (bad_id_after_earlier_checks_reports_invalid_id
    [("context", .jobj [("action", .jstr "delete"), ("id", .jstr "abc")])]
    [("action", .jstr "delete"), ("id", .jstr "abc")] (.jstr "abc") rfl rfl rfl (Or.inl rfl)).1

/-- C5: every valid form payload with `text = "list"` is answered with
exactly 3 attachments whose embedded action-context ids are 1, 2 and 3
(pairwise distinct, positive) and whose actions are all "delete"; and the
attachment builder always embeds a context whose `id` is the attachment's
own event id and whose `action` is "delete". -/
theorem list_command_yields_three_attachments (data : List (String × String))
    (hv : (validate_form_command data).1 = true)
    (ht : formGet data "text" = some "list") :
    (responseAttachments (handle_form_command data)).length = 3 ∧
    (responseAttachments (handle_form_command data)).map
        (fun a => (actionContext a).bind (fun c => dictGet c "id")) =
      [some (.jint 1), some (.jint 2), some (.jint 3)] ∧
    (responseAttachments (handle_form_command data)).map
        (fun a => (actionContext a).bind (fun c => dictGet c "action")) =
      [some (.jstr "delete"), some (.jstr "delete"), some (.jstr "delete")] ∧
    (1 : Int) ≠ 2 ∧ (1 : Int) ≠ 3 ∧ (2 : Int) ≠ 3 ∧
    (0 : Int) < 1 ∧ (0 : Int) < 2 ∧ (0 : Int) < 3 ∧
    ∀ (p t : String) (i : Int),
      (actionContext (create_message_attachment p t i)).bind (fun c => dictGet c "id") =
          some (.jint i) ∧
      (actionContext (create_message_attachment p t i)).bind (fun c => dictGet c "action") =
          some (.jstr "delete") := by
  have he : handle_form_command data = handle_list_command := by
    unfold handle_form_command
    simp [hv, ht]
  rw [he]
  exact ⟨rfl, rfl, rfl, by decide, by decide, by decide, by decide, by decide, by decide,
    fun p t i => ⟨rfl, rfl⟩⟩

/-- C5 witness: the theorem at the concrete list request. -/
theorem list_command_yields_three_attachments_witness :
    (responseAttachments (handle_form_command [("command", "/schedule"), ("text", "list")])).map
        (fun a => (actionContext a).bind (fun c => dictGet c "id")) =
      [some (.jint 1), some (.jint 2), some (.jint 3)] :=
  (list_command_yields_three_attachments [("command", "/schedule"), ("text", "list")] rfl rfl).2.1

/-- C6: a form payload without a `command` key is answered with a 400 whose
text begins "Error: No command provided", and one whose `command` differs
from "/schedule" with the `Invalid command` error naming the offending
value. -/
theorem form_validator_error_messages (data : List (String × String)) :
    (formGet data "command" = none →
      ∃ t, handle_form_command data =
          { status := 400, body := .jobj [("text", .jstr t)] } ∧
        strPre "Error: No command provided" t = true) ∧
    (∀ c : String, formGet data "command" = some c → c ≠ "/schedule" →
      handle_form_command data =
        errorResponse ("Invalid command: " ++ c ++ ". Only /schedule is supported.")) := by
  constructor
  · intro hm
    refine ⟨"Error: No command provided", ?_, rfl⟩
    unfold handle_form_command validate_form_command
    simp [hm]
    rfl
  · intro c hm hne
    unfold handle_form_command validate_form_command
    simp [hm, hne]

/-- C6 witness: both parts at concrete payloads (an empty form and the
command "/x"). -/
theorem form_validator_error_messages_witness :
    handle_form_command [("command", "/x")] =
      errorResponse ("Invalid command: " ++ "/x" ++ ". Only /schedule is supported.") ∧
    ∃ t, handle_form_command [] = { status := 400, body := .jobj [("text", .jstr t)] } ∧
      strPre "Error: No command provided" t = true :=
  ⟨(form_validator_error_messages [("command", "/x")]).2 "/x" rfl (by decide),
   (form_validator_error_messages []).1 rfl⟩

/-- C7 counterexample: a POST with JSON content type whose body fails to
parse raises inside the metadata-logging step, which runs before the try
block; the fault propagates (`none`) instead of becoming the 500 internal
error response. -/
theorem malformed_json_fault_propagates :
    post_handler { contentType := "application/json", jsonBody := none, formFields := [] } =
      none ∧
    post_handler { contentType := "application/json", jsonBody := none, formFields := [] } ≠
      some internalErrorResponse := by
  constructor
  · rfl
  · intro h
    rw [show post_handler
        { contentType := "application/json", jsonBody := none, formFields := [] } =
        none from rfl] at h
    exact Option.noConfusion h

/-- C7 (amended): whenever the pre-try metadata-logging step does not fault,
the handler always returns a response, and any fault of the guarded
extraction/processing pipeline (unparseable JSON body or a processing raise)
yields the 500 response with body text "Internal server error". -/
theorem guarded_faults_return_internal_error (req : PostRequest)
    (hlog : log_post_request_faults req = false) :
    (post_handler req).isSome = true ∧
    (pyIn "application/json" req.contentType = true →
      (req.jsonBody = none ∨ ∃ v, req.jsonBody = some v ∧ handle_json_command v = none) →
      post_handler req = some internalErrorResponse) := by
  constructor
  · unfold post_handler
    simp [hlog]
  · intro hj hb
    unfold post_handler
    rw [if_neg (by simp [hlog]), if_pos hj]
    rcases hb with hbn | ⟨v, hbv, hvn⟩
    · rw [hbn]
    · rw [hbv]
      simp [hvn, Option.getD]

/-- C7 witness: the amended theorem at a content type whose logging branch
is multipart (checked first, does not re-read JSON) while dispatch still
takes the JSON path with an unparseable body. -/
theorem guarded_faults_return_internal_error_witness :
    post_handler { contentType := "multipart/form-data; application/json",
                   jsonBody := none, formFields := [] } = some internalErrorResponse :=
  (guarded_faults_return_internal_error
    { contentType := "multipart/form-data; application/json",
      jsonBody := none, formFields := [] } rfl).2 rfl (Or.inl rfl)

/-- C8: every POST whose content type does not contain the JSON type and
whose body yields no form fields is routed to the form path and answered
with the 400 missing-command error, not an unhandled fault. -/
theorem other_content_type_missing_command (req : PostRequest)
    (hct : pyIn "application/json" req.contentType = false)
    (hbody : req.formFields = []) :
    post_handler req = some (errorResponse "No command provided") := by
  have hlog : log_post_request_faults req = false := by
    unfold log_post_request_faults
    by_cases hm : pyIn "multipart/form-data" req.contentType = true
    · simp [hm]
    · simp [hm, hct]
  unfold post_handler
  rw [if_neg (by simp [hlog]), if_neg (by simp [hct]), hbody]
  rfl

/-- C8 witness: the theorem at a `text/plain` POST with an empty body. -/
theorem other_content_type_missing_command_witness :
    post_handler { contentType := "text/plain", jsonBody := none, formFields := [] } =
      some (errorResponse "No command provided") :=
  other_content_type_missing_command
    { contentType := "text/plain", jsonBody := none, formFields := [] } rfl rfl

/-- C9: the JSON delete of id 2 is acknowledged with a response naming 2,
and a list request after any sequence of prior requests is answered with
the same fixed three-event envelope: no request mutates any state the list
handler reads. -/
theorem delete_then_list_unchanged :
    post_handler jsonDelete2Request =
      some { status := 200,
             body := .jobj [("ephemeral_text", .jstr "Scheduled message 2 deleted.")] } ∧
    pyIn "2" "Scheduled message 2 deleted." = true ∧
    ∀ pre : List PostRequest,
      runBatch (pre ++ [listFormRequest]) = runBatch pre ++ [some handle_list_command] := by
  refine ⟨rfl, rfl, fun pre => ?_⟩
  unfold runBatch
  rw [List.map_append]
  rfl

/-- C10: every JSON object payload that passes validation is acknowledged
with the raw `context.id` value interpolated as Python `str()` renders it —
the unconverted value, not the integer the validator parsed. -/
theorem delete_ack_embeds_raw_id (data ctx : List (String × JVal)) (rawId : JVal)
    (hc : dictGet data "context" = some (.jobj ctx))
    (hi : dictGet ctx "id" = some rawId)
    (hv : (validate_json_command data).1 = true) :
    handle_json_command (.jobj data) =
      some { status := 200,
             body := .jobj [("ephemeral_text",
               .jstr ("Scheduled message " ++ pyStr rawId ++ " deleted."))] } := by
  have h1 : handle_json_command (.jobj data) = handle_delete_command data := by
    unfold handle_json_command
    simp [hv]
  rw [h1]
  unfold handle_delete_command
  rw [hc]
  simp [hi]

/-- C10 witness: the string id "+2" passes validation (it parses to 2) and
the acknowledgement renders "+2", which differs from the rendering of the
converted integer. -/
theorem delete_ack_embeds_raw_id_witness :
    handle_json_command
        (.jobj [("context", .jobj [("action", .jstr "delete"), ("id", .jstr "+2")])]) =
      some { status := 200,
             body := .jobj [("ephemeral_text",
               .jstr ("Scheduled message " ++ pyStr (.jstr "+2") ++ " deleted."))] } ∧
    pyInt (.jstr "+2") = some 2 ∧
    "Scheduled message " ++ pyStr (JVal.jstr "+2") ++ " deleted." =
      "Scheduled message +2 deleted." ∧
    "Scheduled message +2 deleted." ≠ "Scheduled message 2 deleted." :=
  ⟨delete_ack_embeds_raw_id [("context", .jobj [("action", .jstr "delete"), ("id", .jstr "+2")])]
      [("action", .jstr "delete"), ("id", .jstr "+2")] (.jstr "+2") rfl rfl rfl,
   rfl, rfl, by decide⟩

end MattermostSchedule
